import Mathlib

/-!
Shallow embedding of `promptbench/models/models.py`: the model registry
(family identifier lists and `MODEL_LIST`), the facade (`LLMModel.create_model`
dispatch), the concrete adapter constructors with their configuration checks,
the remote adapter's `predict` error path, and the base-class dataset helpers
(`set_raw_dataset`, `predict_dataset`).

External collaborators (the `transformers` tokenizers/models, the `openai`
client, `utils.process_input`/`process_pred`/`eval`) are abstracted as
function parameters; everything the repository itself computes is translated
directly from the source.
-/

/-- The `LLAMA_MODELS` identifier list from the source. -/
def LLAMA_MODELS : List String :=
  ["llama2-7b", "llama2-7b-chat", "llama2-13b", "llama2-13b-chat",
   "llama2-70b", "llama2-70b-chat"]

/-- The `GPT_MODELS` identifier list from the source. -/
def GPT_MODELS : List String :=
  ["gpt-3.5-turbo", "gpt-4"]

/-- The `VICUNA_MODELS` identifier list from the source. -/
def VICUNA_MODELS : List String :=
  ["vicuna-7b", "vicuna-13b", "vicuna-13b-v1.3"]

/-- The `UL2_MODELS` identifier list from the source. -/
def UL2_MODELS : List String :=
  ["google/flan-ul2"]

/-- The reserved identifier compared exactly in the dispatch chain. -/
def flanT5Large : String :=
  "google/flan-t5-large"

/-- The `MODEL_LIST` dict from the source, as an ordered association list. -/
def MODEL_LIST : List (String × List String) :=
  [("t5", [flanT5Large]), ("llama", LLAMA_MODELS), ("gpt", GPT_MODELS),
   ("vicuna", VICUNA_MODELS), ("ul2", UL2_MODELS)]

/-- The static method `LLMModel.model_list()`: returns `MODEL_LIST`. -/
def LLMModel.model_list : List (String × List String) :=
  MODEL_LIST

/-- The open-ended keyword-argument bag passed to constructors.  Each field
models one recognized `kwargs` key; `none` means the key is absent. -/
structure Config where
  model : Option String
  max_new_tokens : Option Int
  model_dir : Option String
  openai_key : Option String
  temperature : Option ℚ
  sleep_time : Option ℚ

/-- Python truthiness of an optional string: `if not x` is taken when `x`
is `None` or the empty string. -/
def pyTruthy : Option String → Bool
  | none => false
  | some s => !s.isEmpty

/-- Python `x in list` where `x` may be `None` (then never a member). -/
def optMem (m : Option String) (l : List String) : Bool :=
  match m with
  | none => false
  | some s => s ∈ l

/-- Errors raised by construction.  `raise ValueError` and the (blocking)
`raise Warning` statements of the source are each one constructor. -/
inductive ModelError where
  | unsupportedModel : ModelError
  | modelDirRequired : ModelError
  | openaiKeyRequired : ModelError
  | temperatureWarning : ModelError
  | sleepTimeWarning : ModelError
deriving DecidableEq

/-- Fields set by `LMMBaseModel.__init__`: `raw_dataset = None`,
`model = kwargs.get('model', None)`,
`max_new_tokens = kwargs.get('max_new_tokens', 20)`.
`D` is the (opaque-to-this-module) dataset type. -/
structure BaseFields (D : Type) where
  raw_dataset : Option D
  model : Option String
  max_new_tokens : Int

/-- `LMMBaseModel.__init__(**kwargs)`. -/
def LMMBaseModel.init (D : Type) (kw : Config) : BaseFields D :=
  { raw_dataset := none, model := kw.model,
    max_new_tokens := kw.max_new_tokens.getD 20 }

/-- State of a constructed `T5Model` (the tokenizer/pipe handles are external
resources loaded from `self.model` and are abstracted away). -/
structure T5State (D : Type) where
  base : BaseFields D

/-- State of a constructed `UL2Model`. -/
structure UL2State (D : Type) where
  base : BaseFields D

/-- State of a constructed `LlamaModel` (handles loaded from `model_dir`
abstracted away; no extra attribute is stored by the source). -/
structure LlamaState (D : Type) where
  base : BaseFields D

/-- State of a constructed `VicunaModel`. -/
structure VicunaState (D : Type) where
  base : BaseFields D

/-- State of a constructed `OpenAIModel`: the source stores `openai_key`,
`temperature` and `sleep_time` as attributes. -/
structure OpenAIState (D : Type) where
  base : BaseFields D
  openai_key : Option String
  temperature : ℚ
  sleep_time : ℚ

/-- `T5Model.__init__`: base init, then loads tokenizer and model from
`self.model` via the external library; the constructor itself performs no
configuration-key check and cannot fail in this module. -/
def T5Model.init (D : Type) (kw : Config) : Except ModelError (T5State D) :=
  Except.ok { base := LMMBaseModel.init D kw }

/-- `UL2Model.__init__`: like `T5Model.__init__`, no configuration check. -/
def UL2Model.init (D : Type) (kw : Config) : Except ModelError (UL2State D) :=
  Except.ok { base := LMMBaseModel.init D kw }

/-- `LlamaModel.__init__`: base init, then
`model_dir = kwargs.get('model_dir', None); if not model_dir: raise ValueError`. -/
def LlamaModel.init (D : Type) (kw : Config) : Except ModelError (LlamaState D) :=
  if pyTruthy kw.model_dir then
    Except.ok { base := LMMBaseModel.init D kw }
  else
    Except.error ModelError.modelDirRequired

/-- `VicunaModel.__init__`: same `model_dir` presence check as the Llama
adapter. -/
def VicunaModel.init (D : Type) (kw : Config) : Except ModelError (VicunaState D) :=
  if pyTruthy kw.model_dir then
    Except.ok { base := LMMBaseModel.init D kw }
  else
    Except.error ModelError.modelDirRequired

/-- `OpenAIModel.__init__`: base init, reads `openai_key`,
`temperature` (default `0.0`) and `sleep_time` (default `3`), then in order:
`if not self.openai_key: raise ValueError`,
`if self.temperature > 0: raise Warning`,
`if self.sleep_time > 0: raise Warning`.  Each `raise` aborts construction,
which is why the two `Warning` statements appear as error outcomes. -/
def OpenAIModel.init (D : Type) (kw : Config) : Except ModelError (OpenAIState D) :=
  let key := kw.openai_key
  let temp := kw.temperature.getD 0
  let slp := kw.sleep_time.getD 3
  if !pyTruthy key then
    Except.error ModelError.openaiKeyRequired
  else if temp > 0 then
    Except.error ModelError.temperatureWarning
  else if slp > 0 then
    Except.error ModelError.sleepTimeWarning
  else
    Except.ok { base := LMMBaseModel.init D kw, openai_key := key,
                temperature := temp, sleep_time := slp }

/-- The adapter held by `LLMModel.infer_model`: one of the five concrete
classes. -/
inductive Adapter (D : Type) where
  | t5 (s : T5State D)
  | llama (s : LlamaState D)
  | openai (s : OpenAIState D)
  | vicuna (s : VicunaState D)
  | ul2 (s : UL2State D)

/-- `LLMModel.create_model`: the if/elif dispatch chain of the facade.
`self.model` is `kwargs.get('model', None)`, so the comparisons are against
an optional string. -/
def LLMModel.create_model (D : Type) (kw : Config) : Except ModelError (Adapter D) :=
  if kw.model = some flanT5Large then
    (T5Model.init D kw).map Adapter.t5
  else if optMem kw.model LLAMA_MODELS then
    (LlamaModel.init D kw).map Adapter.llama
  else if optMem kw.model GPT_MODELS then
    (OpenAIModel.init D kw).map Adapter.openai
  else if optMem kw.model VICUNA_MODELS then
    (VicunaModel.init D kw).map Adapter.vicuna
  else if optMem kw.model UL2_MODELS then
    (UL2Model.init D kw).map Adapter.ul2
  else
    Except.error ModelError.unsupportedModel

/-- The external backend handles used by the encoder-decoder adapters:
`tokenizer(input_text).input_ids`, `pipe.generate(input_ids, max_new_tokens)`
(a batch of output token sequences), and `tokenizer.decode`. -/
structure T5Backend where
  tokenize : String → List Nat
  generate : List Nat → Int → List (List Nat)
  decode : List Nat → String

/-- `T5Model.predict`: tokenize the input, generate with
`max_new_tokens = self.max_new_tokens`, decode `outputs[0]`.  A `none`
result models the `IndexError` when the backend returns no sequence. -/
def T5Model.predict (D : Type) (be : T5Backend) (s : T5State D)
    (input_text : String) : Option String :=
  let input_ids := be.tokenize input_text
  let outputs := be.generate input_ids s.base.max_new_tokens
  outputs.head?.map be.decode

/-- `UL2Model.predict`: tokenize the input, generate with
`max_new_tokens = self.max_new_tokens`, decode `outputs[0]`. -/
def UL2Model.predict (D : Type) (be : T5Backend) (s : UL2State D)
    (input_text : String) : Option String :=
  let input_ids := be.tokenize input_text
  let outputs := be.generate input_ids s.base.max_new_tokens
  outputs.head?.map be.decode

/-- The two `print` statements in `OpenAIModel.predict`'s `except` handler:
the exception itself, then the literal retry notice. -/
inductive LogMsg (E : Type) where
  | exc (e : E)
  | retryNotice

/-- Observable outcome of one `OpenAIModel.predict` call: the returned value
(`none` models Python falling off the end of the function), the number of
API attempts made, the printed log, and the durations slept. -/
structure PredictOutcome (E : Type) where
  result : Option String
  attempts : Nat
  logs : List (LogMsg E)
  sleeps : List ℚ

/-- `OpenAIModel.sleep(seconds)`: blocks for `seconds + random.random()`;
`r` stands for the value drawn from `random.random()`. -/
def OpenAIModel.sleepDuration (seconds r : ℚ) : ℚ :=
  seconds + r

/-- `OpenAIModel.predict`: the `while True` body unconditionally executes
`return result` when the API call succeeds, so the loop never runs a second
iteration; when the call raises, the exception escapes the loop into the
single `except` handler, which prints the exception and the retry notice,
sleeps once for `self.sleep_time + random.random()`, and falls off the end
of the function (returning `None`).  `api` is the external call's outcome
and `r` the random draw used by the sleep. -/
def OpenAIModel.predict (D E : Type) (st : OpenAIState D)
    (api : Except E String) (r : ℚ) : PredictOutcome E :=
  match api with
  | Except.ok result =>
      { result := some result, attempts := 1, logs := [], sleeps := [] }
  | Except.error e =>
      { result := none, attempts := 1,
        logs := [LogMsg.exc e, LogMsg.retryNotice],
        sleeps := [OpenAIModel.sleepDuration st.sleep_time r] }

/-- `LMMBaseModel.set_raw_dataset`: assigns the argument to the
`raw_dataset` attribute and touches nothing else. -/
def LMMBaseModel.set_raw_dataset (D : Type) (s : BaseFields D)
    (raw : Option D) : BaseFields D :=
  { s with raw_dataset := raw }

/-- The `assert self.raw_dataset is not None` failure in
`LMMBaseModel.predict_dataset`. -/
inductive AssertError where
  | datasetNotSet : AssertError
deriving DecidableEq

/-- `LMMBaseModel.predict_dataset(prompt)`: asserts a dataset was attached,
calls the external `process_input` to obtain `(input_texts, labels)`, loops
over `input_texts` appending `self.predict(input_text)` to `raw_preds`, then
hands off to the external `process_pred` (keyed by the dataset's name) and
`eval`.  The per-call `predict`, the collaborators and the dataset-name
accessor are parameters; the returned pair exposes the score and the
accumulated `raw_preds` list. -/
def LMMBaseModel.predict_dataset (D L P Pr S : Type) (s : BaseFields D)
    (prompt : String)
    (process_input : String → D → List String × List L)
    (dataset_name : D → String)
    (predictOne : String → P)
    (process_pred : String → List P → Pr)
    (evalScore : D → Pr → List L → S) :
    Except AssertError (S × List P) :=
  match s.raw_dataset with
  | none => Except.error AssertError.datasetNotSet
  | some d =>
      let its := process_input prompt d
      let input_texts := its.1
      let labels := its.2
      let raw_preds := input_texts.foldl (fun acc t => acc ++ [predictOne t]) []
      let preds := process_pred (dataset_name d) raw_preds
      let score := evalScore d preds labels
      Except.ok (score, raw_preds)

/-- Success test for an `Except`-valued construction. -/
def isOkE {E A : Type} : Except E A → Bool
  | Except.ok _ => true
  | Except.error _ => false

/-- Appending one element per item in a left fold is the same as mapping. -/
theorem foldl_append_map {A B : Type} (f : A → B) :
    ∀ (l : List A) (acc : List B),
      l.foldl (fun a t => a ++ [f t]) acc = acc ++ l.map f := by
  intro l
  induction l with
  | nil => intro acc; simp
  | cons x xs ih => intro acc; simp [ih]

/-- C6: `LLMModel.model_list()` returns the static `MODEL_LIST` table, whose
values are exactly the five predefined identifier lists (t5, llama, gpt,
vicuna, ul2), and no identifier appears in two different families: the five
lists are pairwise disjoint.  The query is a total parameterless function,
so it is pure with no failure mode. -/
theorem model_list_families_disjoint :
    LLMModel.model_list = MODEL_LIST ∧
    MODEL_LIST.map Prod.snd =
      [[flanT5Large], LLAMA_MODELS, GPT_MODELS, VICUNA_MODELS, UL2_MODELS] ∧
    (MODEL_LIST.map Prod.snd).Pairwise (fun a b => ∀ x ∈ a, x ∉ b) := by
  refine ⟨rfl, rfl, ?_⟩
  decide

/-- C9: the T5 adapter's `predict` and the UL2 adapter's `predict` are
extensionally equal: with the same tokenizer/generation backend and the same
`max_new_tokens` setting they produce identical decoded output on every
input text. -/
theorem t5_ul2_predict_agree (D : Type) (be : T5Backend) (s : T5State D)
    (u : UL2State D) (h : s.base.max_new_tokens = u.base.max_new_tokens)
    (x : String) :
    T5Model.predict D be s x = UL2Model.predict D be u x := by
  simp only [T5Model.predict, UL2Model.predict, h]

/-- Concrete backend used by witnesses: echoes token counts. -/
def wBackend : T5Backend :=
  { tokenize := fun s => [s.length], generate := fun l _ => [l],
    decode := fun l => toString l.length }

/-- Concrete T5 adapter state used by witnesses. -/
def wT5 : T5State Unit :=
  { base := { raw_dataset := none, model := some flanT5Large,
              max_new_tokens := 20 } }

/-- Concrete UL2 adapter state used by witnesses. -/
def wUL2 : UL2State Unit :=
  { base := { raw_dataset := none, model := some ("google/flan-ul2"),
              max_new_tokens := 20 } }

/-- Witness for C9 at a concrete backend, states and input. -/
theorem t5_ul2_predict_agree_witness :
    T5Model.predict Unit wBackend wT5 ("hi") =
      UL2Model.predict Unit wBackend wUL2 ("hi") :=
  t5_ul2_predict_agree Unit wBackend wT5 wUL2 rfl ("hi")

/-- C10: `set_raw_dataset` assigns exactly the `raw_dataset` field; the
`model` identifier and the `max_new_tokens` setting fixed at construction
are unchanged.  In this embedding it is the only state-returning operation
on the base class: `predict`, `__call__` and `predict_dataset` return values
without producing a modified state. -/
theorem set_raw_dataset_frame (D : Type) (s : BaseFields D) (raw : Option D) :
    (LMMBaseModel.set_raw_dataset D s raw).raw_dataset = raw ∧
    (LMMBaseModel.set_raw_dataset D s raw).model = s.model ∧
    (LMMBaseModel.set_raw_dataset D s raw).max_new_tokens = s.max_new_tokens :=
  ⟨rfl, rfl, rfl⟩

/-- C1: `create_model` dispatches on the identifier in the fixed if/elif
priority order with first match winning — exact match on the reserved T5
identifier, then the llama list, the gpt list, the vicuna list and the ul2
list — and an identifier matching none of these yields the unsupported-model
error and no adapter. -/
theorem create_model_dispatch_priority (kw : Config) :
    (kw.model = some flanT5Large →
      LLMModel.create_model Unit kw = (T5Model.init Unit kw).map Adapter.t5) ∧
    (kw.model ≠ some flanT5Large → optMem kw.model LLAMA_MODELS = true →
      LLMModel.create_model Unit kw = (LlamaModel.init Unit kw).map Adapter.llama) ∧
    (kw.model ≠ some flanT5Large → optMem kw.model LLAMA_MODELS = false →
      optMem kw.model GPT_MODELS = true →
      LLMModel.create_model Unit kw = (OpenAIModel.init Unit kw).map Adapter.openai) ∧
    (kw.model ≠ some flanT5Large → optMem kw.model LLAMA_MODELS = false →
      optMem kw.model GPT_MODELS = false → optMem kw.model VICUNA_MODELS = true →
      LLMModel.create_model Unit kw = (VicunaModel.init Unit kw).map Adapter.vicuna) ∧
    (kw.model ≠ some flanT5Large → optMem kw.model LLAMA_MODELS = false →
      optMem kw.model GPT_MODELS = false → optMem kw.model VICUNA_MODELS = false →
      optMem kw.model UL2_MODELS = true →
      LLMModel.create_model Unit kw = (UL2Model.init Unit kw).map Adapter.ul2) ∧
    (kw.model ≠ some flanT5Large → optMem kw.model LLAMA_MODELS = false →
      optMem kw.model GPT_MODELS = false → optMem kw.model VICUNA_MODELS = false →
      optMem kw.model UL2_MODELS = false →
      LLMModel.create_model Unit kw = Except.error ModelError.unsupportedModel) := by
  refine ⟨?_, ?_, ?_, ?_, ?_, ?_⟩ <;>
    intros <;> simp_all [LLMModel.create_model]

/-- Identifier matching no family list. -/
def cfgUnsupported : Config :=
  { model := some ("no-such-model"), max_new_tokens := none, model_dir := none,
    openai_key := none, temperature := none, sleep_time := none }

/-- Witness for C1: the dispatch chain rejects an unknown identifier with
the unsupported-model error. -/
theorem create_model_dispatch_priority_witness :
    LLMModel.create_model Unit cfgUnsupported =
      Except.error ModelError.unsupportedModel :=
  (create_model_dispatch_priority cfgUnsupported).2.2.2.2.2
    (by decide) (by decide) (by decide) (by decide) (by decide)

/-- Configuration with a credential and everything else left at its
default: `temperature` defaults to `0.0`, `sleep_time` defaults to `3`. -/
def cfgGptDefaults : Config :=
  { model := some ("gpt-4"), max_new_tokens := none, model_dir := none,
    openai_key := some ("sk-test"), temperature := none, sleep_time := none }

/-- Credential present, nonzero temperature, non-positive sleep time. -/
def cfgGptWarmTemp : Config :=
  { model := some ("gpt-4"), max_new_tokens := none, model_dir := none,
    openai_key := some ("sk-test"), temperature := some 1,
    sleep_time := some (-1) }

/-- C2 (code bug): the source writes `raise Warning(...)` for both the
temperature and the sleep-time conditions, so the "warnings" are raised
exceptions that abort `OpenAIModel.__init__`: construction with a credential
present does NOT complete under the default retry delay of 3 (sleep-time
branch) nor under a nonzero temperature (temperature branch), and the
facade yields no adapter. -/
theorem openai_warnings_block_construction :
    OpenAIModel.init Unit cfgGptDefaults =
      Except.error ModelError.sleepTimeWarning ∧
    OpenAIModel.init Unit cfgGptWarmTemp =
      Except.error ModelError.temperatureWarning ∧
    LLMModel.create_model Unit cfgGptDefaults =
      Except.error ModelError.sleepTimeWarning := by
  refine ⟨?_, ?_, ?_⟩ <;> rfl

/-- Credential present, default temperature, explicit `sleep_time = 3`. -/
def cfgGptSleep3 : Config :=
  { model := some ("gpt-4"), max_new_tokens := none, model_dir := none,
    openai_key := some ("sk-test"), temperature := some 0,
    sleep_time := some 3 }

/-- Credential present, default temperature, `sleep_time = -1`. -/
def cfgGptSleepNeg : Config :=
  { model := some ("gpt-4"), max_new_tokens := none, model_dir := none,
    openai_key := some ("sk-test"), temperature := some 0,
    sleep_time := some (-1) }

/-- C4 (code bug): the source's condition is `if self.sleep_time > 0:
raise Warning`, so the sleep-time "warning" fires exactly on POSITIVE
delays — the default 3 raises it — while a negative delay passes the check,
the opposite of the zero-or-negative trigger the claim states. -/
theorem sleep_time_warning_fires_on_positive_delay :
    OpenAIModel.init Unit cfgGptSleep3 =
      Except.error ModelError.sleepTimeWarning ∧
    isOkE (OpenAIModel.init Unit cfgGptSleepNeg) = true := by
  refine ⟨?_, ?_⟩ <;> rfl

/-- C8: with a credential supplied and the retry delay left at its default
of 3 or set to any positive value, `OpenAIModel.__init__` raises and yields
no adapter; the constructor completes only when both the temperature and
the retry delay are non-positive. -/
theorem openai_init_requires_nonpositive_params (kw : Config) :
    (pyTruthy kw.openai_key = true → 0 < kw.sleep_time.getD 3 →
      isOkE (OpenAIModel.init Unit kw) = false) ∧
    (isOkE (OpenAIModel.init Unit kw) = true →
      kw.temperature.getD 0 ≤ 0 ∧ kw.sleep_time.getD 3 ≤ 0) := by
  simp only [OpenAIModel.init]
  split_ifs with h1 h2 h3
  · refine ⟨fun _ _ => rfl, fun h => by simp [isOkE] at h⟩
  · refine ⟨fun _ _ => rfl, fun h => by simp [isOkE] at h⟩
  · refine ⟨fun _ _ => rfl, fun h => by simp [isOkE] at h⟩
  · refine ⟨fun _ hpos => absurd hpos h3, fun _ => ⟨le_of_not_lt h2, le_of_not_lt h3⟩⟩

/-- Witness for C8: a credential with the delay left at its default makes
construction fail. -/
theorem openai_init_requires_nonpositive_params_witness :
    isOkE (OpenAIModel.init Unit cfgGptDefaults) = false :=
  (openai_init_requires_nonpositive_params cfgGptDefaults).1
    (by decide) (by norm_num [cfgGptDefaults])

/-- C3: when the single API call inside `OpenAIModel.predict` raises, the
call logs the exception (and the retry notice), sleeps exactly once for the
configured delay plus the sub-second random draw `r` (so the duration lies
in `[sleep_time, sleep_time + 1)`), returns `None`, propagates nothing, and
makes no second attempt. -/
theorem openai_predict_error_path (D E : Type) (st : OpenAIState D)
    (api : Except E String) (e : E) (r : ℚ)
    (hapi : api = Except.error e) (h0 : 0 ≤ r) (h1 : r < 1) :
    (OpenAIModel.predict D E st api r).result = none ∧
    (OpenAIModel.predict D E st api r).attempts = 1 ∧
    (OpenAIModel.predict D E st api r).logs =
      [LogMsg.exc e, LogMsg.retryNotice] ∧
    (OpenAIModel.predict D E st api r).sleeps = [st.sleep_time + r] ∧
    st.sleep_time ≤ st.sleep_time + r ∧
    st.sleep_time + r < st.sleep_time + 1 := by
  subst hapi
  refine ⟨rfl, rfl, rfl, rfl, by linarith, by linarith⟩

/-- Concrete remote-adapter state used by witnesses. -/
def wOpenAI : OpenAIState Unit :=
  { base := { raw_dataset := none, model := some ("gpt-4"),
              max_new_tokens := 20 },
    openai_key := some ("sk-test"), temperature := 0, sleep_time := -1 }

/-- Witness for C3 at a concrete state, a failing API call and `r = 1/2`. -/
theorem openai_predict_error_path_witness :
    (OpenAIModel.predict Unit Nat wOpenAI (Except.error 7) (1/2)).result = none ∧
    (OpenAIModel.predict Unit Nat wOpenAI (Except.error 7) (1/2)).attempts = 1 ∧
    (OpenAIModel.predict Unit Nat wOpenAI (Except.error 7) (1/2)).logs =
      [LogMsg.exc 7, LogMsg.retryNotice] ∧
    (OpenAIModel.predict Unit Nat wOpenAI (Except.error 7) (1/2)).sleeps =
      [wOpenAI.sleep_time + 1/2] ∧
    wOpenAI.sleep_time ≤ wOpenAI.sleep_time + 1/2 ∧
    wOpenAI.sleep_time + 1/2 < wOpenAI.sleep_time + 1 :=
  openai_predict_error_path Unit Nat wOpenAI (Except.error 7) 7 (1/2) rfl
    (by norm_num) (by norm_num)

/-- T5 identifier with the local-weights path withheld. -/
def cfgT5NoDir : Config :=
  { model := some flanT5Large, max_new_tokens := none, model_dir := none,
    openai_key := none, temperature := none, sleep_time := none }

/-- UL2 identifier with the local-weights path withheld. -/
def cfgUL2NoDir : Config :=
  { model := some ("google/flan-ul2"), max_new_tokens := none,
    model_dir := none, openai_key := none, temperature := none,
    sleep_time := none }

/-- Counterexample to C5: the T5 and UL2 constructors perform no
local-weights-path presence check, so withholding `model_dir` does not make
construction raise — both adapters (and the facade dispatching to them)
construct successfully without it. -/
theorem t5_ul2_construct_without_model_dir :
    isOkE (T5Model.init Unit cfgT5NoDir) = true ∧
    isOkE (LLMModel.create_model Unit cfgT5NoDir) = true ∧
    isOkE (UL2Model.init Unit cfgUL2NoDir) = true ∧
    isOkE (LLMModel.create_model Unit cfgUL2NoDir) = true :=
  ⟨rfl, rfl, rfl, rfl⟩

/-- C5 amended: the Llama and Vicuna constructors require a (truthy)
local-weights path and raise without one, the remote constructor requires a
(truthy) credential and raises without one — supplying the key lets the
presence check pass — while the T5 and UL2 constructors perform no required
configuration-key check and always construct. -/
theorem required_config_keys_amended (kw : Config) :
    (pyTruthy kw.model_dir = false →
      LlamaModel.init Unit kw = Except.error ModelError.modelDirRequired ∧
      VicunaModel.init Unit kw = Except.error ModelError.modelDirRequired) ∧
    (pyTruthy kw.model_dir = true →
      isOkE (LlamaModel.init Unit kw) = true ∧
      isOkE (VicunaModel.init Unit kw) = true) ∧
    (pyTruthy kw.openai_key = false →
      OpenAIModel.init Unit kw = Except.error ModelError.openaiKeyRequired) ∧
    (pyTruthy kw.openai_key = true →
      OpenAIModel.init Unit kw ≠ Except.error ModelError.openaiKeyRequired) ∧
    isOkE (T5Model.init Unit kw) = true ∧
    isOkE (UL2Model.init Unit kw) = true := by
  refine ⟨fun h => ?_, fun h => ?_, fun h => ?_, fun h => ?_, rfl, rfl⟩
  · simp [LlamaModel.init, VicunaModel.init, h]
  · simp [LlamaModel.init, VicunaModel.init, isOkE, h]
  · simp [OpenAIModel.init, h]
  · simp only [OpenAIModel.init, h, Bool.not_true, Bool.false_eq_true,
      if_false]
    split_ifs <;> simp

/-- Llama identifier with a local-weights path supplied. -/
def cfgLlamaDir : Config :=
  { model := some ("llama2-7b"), max_new_tokens := none,
    model_dir := some ("/models/llama2-7b"), openai_key := none,
    temperature := none, sleep_time := none }

/-- Witness for the amended C5: withholding the path fails the Llama
constructor, supplying it passes; a truthy credential passes the remote
presence check. -/
theorem required_config_keys_amended_witness :
    LlamaModel.init Unit cfgUnsupported =
      Except.error ModelError.modelDirRequired ∧
    isOkE (LlamaModel.init Unit cfgLlamaDir) = true ∧
    OpenAIModel.init Unit cfgGptDefaults ≠
      Except.error ModelError.openaiKeyRequired :=
  ⟨((required_config_keys_amended cfgUnsupported).1 (by decide)).1,
   ((required_config_keys_amended cfgLlamaDir).2.1 (by decide)).1,
   (required_config_keys_amended cfgGptDefaults).2.2.2.1 (by decide)⟩

/-- C7: `predict_dataset` fails fast with the assertion error when no
dataset was attached; with a dataset attached whose processed input list
has N items, it calls `predict` once per input item in order, so the
accumulated raw predictions are exactly the map of `predict` over the
inputs, with length N. -/
theorem predict_dataset_calls_predict_once_per_item (D L P Pr S : Type)
    (s : BaseFields D) (prompt : String)
    (process_input : String → D → List String × List L)
    (dataset_name : D → String) (predictOne : String → P)
    (process_pred : String → List P → Pr)
    (evalScore : D → Pr → List L → S) :
    (s.raw_dataset = none →
      LMMBaseModel.predict_dataset D L P Pr S s prompt process_input
        dataset_name predictOne process_pred evalScore =
        Except.error AssertError.datasetNotSet) ∧
    (∀ d, s.raw_dataset = some d →
      ∃ score,
        LMMBaseModel.predict_dataset D L P Pr S s prompt process_input
          dataset_name predictOne process_pred evalScore =
          Except.ok (score, (process_input prompt d).1.map predictOne) ∧
        ((process_input prompt d).1.map predictOne).length =
          (process_input prompt d).1.length) := by
  constructor
  · intro h
    simp [LMMBaseModel.predict_dataset, h]
  · intro d hd
    refine ⟨evalScore d (process_pred (dataset_name d)
      ((process_input prompt d).1.map predictOne)) (process_input prompt d).2,
      ?_, by simp⟩
    simp [LMMBaseModel.predict_dataset, hd, foldl_append_map]

/-- Concrete collaborators for the C7 witness. -/
def wPI : String → Nat → List String × List Nat :=
  fun p d => ([p, p, p], [d])

/-- Dataset-name accessor for the C7 witness. -/
def wDN : Nat → String :=
  fun _ => ""

/-- Post-processing collaborator for the C7 witness. -/
def wPP : String → List Nat → Nat :=
  fun _ l => l.length

/-- Scoring collaborator for the C7 witness. -/
def wEV : Nat → Nat → List Nat → Nat :=
  fun _ pr _ => pr

/-- Base state with a dataset attached, for the C7 witness. -/
def wBase : BaseFields Nat :=
  { raw_dataset := some 5, model := none, max_new_tokens := 20 }

/-- Witness for C7 at a concrete attached dataset: `predict` (here
`String.length`) is applied once to each of the three processed inputs. -/
theorem predict_dataset_calls_predict_once_per_item_witness :
    ∃ score,
      LMMBaseModel.predict_dataset Nat Nat Nat Nat Nat wBase ("q") wPI wDN
        String.length wPP wEV =
        Except.ok (score, (wPI ("q") 5).1.map String.length) ∧
      ((wPI ("q") 5).1.map String.length).length = (wPI ("q") 5).1.length :=
  (predict_dataset_calls_predict_once_per_item Nat Nat Nat Nat Nat wBase
    ("q") wPI wDN String.length wPP wEV).2 5 rfl
